import Mathlib

/-!
Shallow embedding of the orchestration code of a self-driving-car
Q-learning project.  The repository's two source files are glue around
external collaborators (Car, Track, LineEvaluator, DeepQDriver, pyglet):

* `train_deep_q.py` — the training entry point: a per-tick `game_loop`
  that reads the state vector, selects an action, moves the car,
  evaluates the new position, remembers the transition, and on episode
  end dumps the replay memory and triggers a background training
  thread; a `_background_replay` worker; an `on_close` handler that
  waits for training and saves model weights.

* `main.py` — a hardened demo entry point: a `game_loop` in which every
  per-tick call is wrapped in try/except, plus module-level model-weight
  loading that tolerates a missing or corrupt weights file.

The external collaborators' results (evaluator score, alive flag,
sensor vectors, thread liveness, exceptions raised by the calls) are
supplied as oracle inputs per tick; numbers are idealised as rationals.
Each tick produces an event trace recording the calls made, in order.
-/

/-- Error values raised by external collaborators (driver, car,
evaluator, filesystem), identified by a numeric code. -/
abbrev Err := Nat

namespace TrainDeepQ

/-- Events emitted by one execution of `game_loop` in `train_deep_q.py`,
listed in the order the corresponding calls appear in the source. -/
inductive Event where
  | getInputData
  | calculateCommand
  | move (turnRate accelRate dt : ℚ)
  | evaluate (dt : ℚ)
  | remember (state : List ℚ) (action : ℕ) (reward : ℚ) (newState : List ℚ) (done : Bool)
  | dumpMemory
  | startTraining
  | decayEpsilon
  | initPosition
  | resetScore
deriving DecidableEq

/-- The call kind of an event, with call arguments erased. -/
inductive EKind where
  | getInputData
  | calculateCommand
  | move
  | evaluate
  | remember
  | dumpMemory
  | startTraining
  | decayEpsilon
  | initPosition
  | resetScore
deriving DecidableEq

/-- Erase an event's arguments, keeping which call it was. -/
def Event.kind : Event → EKind
  | .getInputData => .getInputData
  | .calculateCommand => .calculateCommand
  | .move _ _ _ => .move
  | .evaluate _ => .evaluate
  | .remember _ _ _ _ _ => .remember
  | .dumpMemory => .dumpMemory
  | .startTraining => .startTraining
  | .decayEpsilon => .decayEpsilon
  | .initPosition => .initPosition
  | .resetScore => .resetScore

/-- The module-level mutable state of `train_deep_q.py` that `game_loop`
reads and writes: `last_score`, `time_elapsed`, `game_count`,
`skip_frame` and the `scores` list. -/
structure LoopState where
  lastScore : ℚ
  timeElapsed : ℚ
  gameCount : ℕ
  skipFrame : Bool
  scores : List ℚ
deriving DecidableEq

/-- The oracle for one tick: `dt` handed in by the scheduler and the
results returned by the external collaborators' calls during the tick.
`scoreAfter` is the value `evaluator.get_score()` returns after
`evaluate(dt)` ran (nothing changes the evaluator between the reads at
lines 62, 63 and 78, so one value suffices).  `threadAlive` is whether
`training_thread` is non-None and alive when the episode-end branch
checks it. -/
structure TickInput where
  dt : ℚ
  stateVec : List ℚ
  turnRate : ℚ
  accelRate : ℚ
  action : ℕ
  evalAlive : Bool
  scoreAfter : ℚ
  newStateVec : List ℚ
  threadAlive : Bool
deriving DecidableEq

/-- The outcome of one tick: the updated module state, the trace of
calls made, the reward remembered this tick (if any), and whether the
episode-end branch ran. -/
structure TickResult where
  state : LoopState
  trace : List Event
  reward : Option ℚ
  ended : Bool
deriving DecidableEq

/-- `game_loop(dt)` of `train_deep_q.py` (lines 46–87).  A skipped frame
returns immediately after clearing `skip_frame`.  Otherwise the tick
advances `time_elapsed`, reads the state, computes the command, moves
the car, evaluates, computes `reward = get_score() - last_score`,
updates `last_score`, remembers the transition, and if
`done or time_elapsed >= 300` runs the episode-end branch: dump memory,
start a background training thread unless one is alive, append
`score + 100` to `scores`, decay epsilon, increment `game_count`, zero
`last_score` and `time_elapsed`, re-init the car, reset the evaluator
score, and set `skip_frame`. -/
def game_loop (s : LoopState) (i : TickInput) : TickResult :=
  if s.skipFrame = true then
    { state := { s with skipFrame := false }, trace := [], reward := none, ended := false }
  else
    let te := s.timeElapsed + i.dt
    let done : Bool := !i.evalAlive
    let reward := i.scoreAfter - s.lastScore
    let base : List Event :=
      [.getInputData, .calculateCommand, .move i.turnRate i.accelRate i.dt,
       .evaluate i.dt, .getInputData,
       .remember i.stateVec i.action reward i.newStateVec done]
    if done = true ∨ 300 ≤ te then
      { state := { lastScore := 0, timeElapsed := 0, gameCount := s.gameCount + 1,
                   skipFrame := true, scores := s.scores ++ [i.scoreAfter + 100] },
        trace := base ++ [.dumpMemory] ++
          (if i.threadAlive = true then [] else [.startTraining]) ++
          [.decayEpsilon, .initPosition, .resetScore],
        reward := some reward, ended := true }
    else
      { state := { s with lastScore := i.scoreAfter, timeElapsed := te },
        trace := base, reward := some reward, ended := false }

/-- Run `game_loop` over a list of tick inputs, grouping the remembered
rewards by episode.  `acc` holds the rewards remembered so far in the
current episode; each time the episode-end branch runs, the completed
episode's reward list is recorded together with that tick's final
evaluator score. -/
def runEpisodes : LoopState → List ℚ → List TickInput → List (List ℚ × ℚ)
  | _, _, [] => []
  | s, acc, i :: rest =>
    let r := game_loop s i
    let acc2 := acc ++ r.reward.toList
    if r.ended = true then (acc2, i.scoreAfter) :: runEpisodes r.state [] rest
    else runEpisodes r.state acc2 rest

/-- The oracle for one tick of the fallible view of `game_loop`: each
external call either returns a value or raises. -/
structure TickInputE where
  dt : ℚ
  getInputRes : Except Err (List ℚ)
  commandRes : Except Err (ℚ × ℚ × ℕ)
  moveRes : Except Err Unit
  evalRes : Except Err Bool
  scoreAfter : ℚ
  newInputRes : Except Err (List ℚ)
  threadAlive : Bool

/-- `game_loop` of `train_deep_q.py` with raising external calls.  The
source wraps none of the per-tick calls in try/except, so the calls run
in order and the first raised exception leaves the function. -/
def game_loopE (s : LoopState) (i : TickInputE) : Except Err TickResult :=
  if s.skipFrame = true then
    .ok { state := { s with skipFrame := false }, trace := [], reward := none, ended := false }
  else do
    let st ← i.getInputRes
    let c ← i.commandRes
    let _ ← i.moveRes
    let alive ← i.evalRes
    let newSt ← i.newInputRes
    .ok (game_loop s
      { dt := i.dt, stateVec := st, turnRate := c.1, accelRate := c.2.1, action := c.2.2,
        evalAlive := alive, scoreAfter := i.scoreAfter, newStateVec := newSt,
        threadAlive := i.threadAlive })

end TrainDeepQ

/-- Python's `try: body except Exception as e: handler(e)` for a body
that either returns a value or raises. -/
def pyRun (body : Except Err α) (handler : Err → Except Err α) : Except Err α :=
  match body with
  | .ok v => .ok v
  | .error e => handler e

namespace TrainDeepQ

/-- What `_background_replay` printed. -/
inductive ReplayLog where
  | finishedWithLoss (loss : ℚ)
  | finishedNoLoss
  | errorLogged (e : Err)
deriving DecidableEq

/-- `_background_replay(batch_size, epochs)` of `train_deep_q.py`
(lines 15–24).  `replayRes` is the outcome of the
`driver.replay_memory` call: a loss, `None` when there was not enough
data, or a raised exception.  The whole body is wrapped in
try/except, appending to `losses` only when a non-None loss came back. -/
def background_replay (replayRes : Except Err (Option ℚ)) (losses : List ℚ) :
    Except Err (List ℚ × ReplayLog) :=
  pyRun
    (do
      let loss ← replayRes
      match loss with
      | some l => .ok (losses ++ [l], .finishedWithLoss l)
      | none => .ok (losses, .finishedNoLoss))
    (fun e => .ok (losses, .errorLogged e))

/-- Events emitted by the `on_close` handler. -/
inductive CEvent where
  | joinThread (timeout : ℚ)
  | saveAttempt
  | savedOk
  | logSaveError (e : Err)
deriving DecidableEq

/-- The oracle for `on_close`: whether the training thread is alive
when checked, and the outcome of `driver.save_model_weights`. -/
structure CloseInput where
  threadAlive : Bool
  saveRes : Except Err Unit

/-- The try-block of `on_close` (lines 108–115): join the training
thread with a 10-second timeout when it is alive, then attempt the
model save; a failing save raises out of the block. -/
def on_close_body (inp : CloseInput) : List CEvent × Except Err Unit :=
  let joins : List CEvent := if inp.threadAlive = true then [.joinThread 10] else []
  match inp.saveRes with
  | .ok _ => (joins ++ [.saveAttempt, .savedOk], .ok ())
  | .error e => (joins ++ [.saveAttempt], .error e)

/-- `on_close` of `train_deep_q.py` (lines 106–118): the try-block with
its except-clause, which only logs the error. -/
def on_close (inp : CloseInput) : List CEvent × Except Err Unit :=
  match on_close_body inp with
  | (t, .ok _) => (t, .ok ())
  | (t, .error e) => (t ++ [.logSaveError e], .ok ())

end TrainDeepQ

namespace MainPy

/-- The oracle for one tick of `main.py`'s `game_loop`: the outcome of
each external call the tick makes, one field per call site. -/
structure MainTickInput where
  getInputRes : Except Err (List ℚ)
  commandRes : Except Err (ℚ × ℚ × ℕ)
  moveRes : Except Err Unit
  moveFailInitRes : Except Err Unit
  evalRes : Except Err Bool
  doneInitRes : Except Err Unit
  doneResetRes : Except Err Unit
  catchInitRes : Except Err Unit
  catchResetRes : Except Err Unit

/-- How a tick of `main.py`'s `game_loop` finished: ran to the end with
the command it used (`action = none` is the zero-action fallback after
a failed `calculate_command`), returned early after a failed `move`
re-initialised the car, or recovered in the outer catch-all. -/
inductive MainOutcome where
  | ranTick (turnRate accelRate : ℚ) (action : Option ℕ) (done : Bool)
  | resetAfterMoveFailure
  | recoveredFromFault
deriving DecidableEq

/-- The outer try-block of `main.py`'s `game_loop` (lines 97–137).
`get_input_data` failure is logged and ignored; `calculate_command`
failure falls back to the zero action; `move` failure re-initialises
the car and returns (that `init_position` call is not itself wrapped,
so its failure raises out of the block); `evaluate` failure is treated
as `done = True`; the two reset calls of the done-branch are each
individually caught. -/
def game_loop_body (inp : MainTickInput) : Except Err MainOutcome :=
  let cmd : ℚ × ℚ × Option ℕ :=
    match inp.commandRes with
    | .ok (t, a, act) => (t, a, some act)
    | .error _ => (0, 0, none)
  match inp.moveRes with
  | .error _ => do
      let _ ← inp.moveFailInitRes
      .ok .resetAfterMoveFailure
  | .ok _ =>
      let done : Bool :=
        match inp.evalRes with
        | .ok alive => !alive
        | .error _ => true
      .ok (.ranTick cmd.1 cmd.2.1 cmd.2.2 done)

/-- `game_loop` of `main.py` (lines 94–147): the outer try-block with
its catch-all except-clause, whose own recovery calls are wrapped in a
`try ... except: pass`, so the handler never raises. -/
def game_loop (inp : MainTickInput) : Except Err MainOutcome :=
  pyRun (game_loop_body inp) (fun _ => .ok .recoveredFromFault)

/-- What the module-level model loading of `main.py` ended with. -/
structure StartupOutcome where
  usedPretrained : Bool
  warned : Bool
deriving DecidableEq

/-- The oracle for model loading: whether `model.h5` exists, and the
outcome of `driver.load_model_weights`. -/
structure StartupInput where
  modelFileExists : Bool
  loadRes : Except Err Unit

/-- The module-level model loading of `main.py` (lines 60–68): when the
file exists, try to load it, logging a warning and continuing with
fresh parameters if the load raises; when it does not exist, warn and
continue with fresh parameters. -/
def startup_model_load (inp : StartupInput) : Except Err StartupOutcome :=
  if inp.modelFileExists = true then
    pyRun
      (do
        let _ ← inp.loadRes
        .ok { usedPretrained := true, warned := false })
      (fun _ => .ok { usedPretrained := false, warned := true })
  else
    .ok { usedPretrained := false, warned := true }

end MainPy

/-- Claim C10: the single tick immediately following an episode reset
(the `skip_frame` tick) performs no simulation work: no calls are made
(empty trace), no transition is remembered, the episode-end branch does
not run, and all module state other than the `skip_frame` flag itself —
in particular `time_elapsed` — is unchanged. -/
theorem skip_frame_tick_no_work (s : TrainDeepQ.LoopState) (i : TrainDeepQ.TickInput)
    (h : s.skipFrame = true) :
    TrainDeepQ.game_loop s i =
      { state := { s with skipFrame := false }, trace := [], reward := none, ended := false } := by
  simp [TrainDeepQ.game_loop, h]

/-- Witness for `skip_frame_tick_no_work` at a concrete state and input. -/
theorem skip_frame_tick_no_work_witness :
    TrainDeepQ.game_loop
        { lastScore := 4, timeElapsed := 7, gameCount := 2, skipFrame := true, scores := [9] }
        { dt := 1, stateVec := [3], turnRate := 1, accelRate := 2, action := 5,
          evalAlive := true, scoreAfter := 6, newStateVec := [8], threadAlive := false } =
      { state := { lastScore := 4, timeElapsed := 7, gameCount := 2, skipFrame := false,
                   scores := [9] },
        trace := [], reward := none, ended := false } :=
  skip_frame_tick_no_work _ _ rfl

/-- Helper: the episode-end branch of `TrainDeepQ.game_loop` runs
exactly when the frame is not skipped and the evaluator reported
not-alive or the updated elapsed time reached 300 seconds. -/
theorem game_loop_ended_iff (s : TrainDeepQ.LoopState) (i : TrainDeepQ.TickInput) :
    (TrainDeepQ.game_loop s i).ended = true ↔
      s.skipFrame = false ∧ (i.evalAlive = false ∨ 300 ≤ s.timeElapsed + i.dt) := by
  by_cases h : s.skipFrame = true
  · simp [TrainDeepQ.game_loop, h]
  · have h' : s.skipFrame = false := by simpa using h
    by_cases h2 : i.evalAlive = false ∨ 300 ≤ s.timeElapsed + i.dt
    · simp [TrainDeepQ.game_loop, h', h2]
    · simp [TrainDeepQ.game_loop, h', h2]

/-- Claim C1: on every non-skipped tick the calls happen in exactly
this order: the driver reads the state via `get_input_data`, then
selects an action via `calculate_command`, then the car applies it via
`move`, then the evaluator runs `evaluate(dt)`, then (after the second
state read) the driver records the transition via `remember`. -/
theorem tick_call_order (s : TrainDeepQ.LoopState) (i : TrainDeepQ.TickInput)
    (h : s.skipFrame = false) :
    ((TrainDeepQ.game_loop s i).trace.map TrainDeepQ.Event.kind).take 6 =
      [.getInputData, .calculateCommand, .move, .evaluate, .getInputData, .remember] := by
  simp only [TrainDeepQ.game_loop, h, Bool.false_eq_true, if_false]
  split <;> rfl

/-- Witness for `tick_call_order` at a concrete state and input. -/
theorem tick_call_order_witness :
    ((TrainDeepQ.game_loop
        { lastScore := 0, timeElapsed := 0, gameCount := 0, skipFrame := false, scores := [] }
        { dt := 1, stateVec := [2], turnRate := 3, accelRate := 4, action := 1,
          evalAlive := true, scoreAfter := 5, newStateVec := [6],
          threadAlive := false }).trace.map TrainDeepQ.Event.kind).take 6 =
      [.getInputData, .calculateCommand, .move, .evaluate, .getInputData, .remember] :=
  tick_call_order _ _ rfl

/-- Counterexample to claim C2: a tick on which `evaluate(dt)` returned
truthy (the car is alive) but the episode-end branch still runs,
because `time_elapsed` reached the 300-second cap. -/
theorem episode_end_despite_alive_evaluator :
    (TrainDeepQ.TickInput.evalAlive
        { dt := 2, stateVec := [], turnRate := 0, accelRate := 0, action := 0,
          evalAlive := true, scoreAfter := 0, newStateVec := [], threadAlive := false } = true) ∧
      (TrainDeepQ.game_loop
          { lastScore := 0, timeElapsed := 299, gameCount := 0, skipFrame := false, scores := [] }
          { dt := 2, stateVec := [], turnRate := 0, accelRate := 0, action := 0,
            evalAlive := true, scoreAfter := 0, newStateVec := [],
            threadAlive := false }).state.gameCount = 1 := by
  constructor
  · rfl
  · have h300 : (300 : ℚ) ≤ 299 + 2 := by norm_num
    simp [TrainDeepQ.game_loop, h300]

/-- Claim C2 as amended: on a non-skipped tick the episode-end branch
runs if and only if `evaluate(dt)` returned falsy on that tick or the
updated `time_elapsed` reached the 300-second cap. -/
theorem episode_end_iff_eval_or_timeout (s : TrainDeepQ.LoopState) (i : TrainDeepQ.TickInput)
    (h : s.skipFrame = false) :
    ((TrainDeepQ.game_loop s i).state.gameCount = s.gameCount + 1) ↔
      (i.evalAlive = false ∨ 300 ≤ s.timeElapsed + i.dt) := by
  by_cases h2 : i.evalAlive = false ∨ 300 ≤ s.timeElapsed + i.dt
  · simp [TrainDeepQ.game_loop, h, h2]
  · simp [TrainDeepQ.game_loop, h, h2]

/-- Witness for `episode_end_iff_eval_or_timeout`: a concrete tick with
a not-alive evaluator increments the game counter. -/
theorem episode_end_iff_eval_or_timeout_witness :
    (TrainDeepQ.game_loop
        { lastScore := 0, timeElapsed := 0, gameCount := 0, skipFrame := false, scores := [] }
        { dt := 1, stateVec := [], turnRate := 0, accelRate := 0, action := 0,
          evalAlive := false, scoreAfter := 0, newStateVec := [],
          threadAlive := false }).state.gameCount = 0 + 1 :=
  (episode_end_iff_eval_or_timeout _ _ rfl).mpr (Or.inl rfl)

/-- Claim C5: when the episode-end branch runs while a previous
training thread is still alive, no new training pass is started
(`startTraining` never appears in the tick's trace), while the freshly
ended episode's memory was still dumped. -/
theorem no_second_training_pass (s : TrainDeepQ.LoopState) (i : TrainDeepQ.TickInput)
    (h1 : s.skipFrame = false) (h2 : i.threadAlive = true)
    (h3 : (TrainDeepQ.game_loop s i).ended = true) :
    TrainDeepQ.EKind.startTraining ∉
        ((TrainDeepQ.game_loop s i).trace.map TrainDeepQ.Event.kind) ∧
      TrainDeepQ.EKind.dumpMemory ∈
        ((TrainDeepQ.game_loop s i).trace.map TrainDeepQ.Event.kind) := by
  have hc := ((game_loop_ended_iff s i).mp h3).2
  constructor <;> simp [TrainDeepQ.game_loop, h1, h2, hc, TrainDeepQ.Event.kind]

/-- Witness for `no_second_training_pass` at a concrete state and input. -/
theorem no_second_training_pass_witness :
    TrainDeepQ.EKind.startTraining ∉
        ((TrainDeepQ.game_loop
            { lastScore := 0, timeElapsed := 0, gameCount := 0, skipFrame := false, scores := [] }
            { dt := 1, stateVec := [], turnRate := 0, accelRate := 0, action := 0,
              evalAlive := false, scoreAfter := 0, newStateVec := [],
              threadAlive := true }).trace.map TrainDeepQ.Event.kind) ∧
      TrainDeepQ.EKind.dumpMemory ∈
        ((TrainDeepQ.game_loop
            { lastScore := 0, timeElapsed := 0, gameCount := 0, skipFrame := false, scores := [] }
            { dt := 1, stateVec := [], turnRate := 0, accelRate := 0, action := 0,
              evalAlive := false, scoreAfter := 0, newStateVec := [],
              threadAlive := true }).trace.map TrainDeepQ.Event.kind) :=
  no_second_training_pass _ _ rfl rfl (by decide)

/-- Claim C6: whenever a tick starts a background training pass, the
tick's full call trace shows `dump_memory_to_cache` (position 6)
strictly before the training thread start (position 7), so training
reads a cache that already holds the episode's transitions. -/
theorem memory_dumped_before_training_starts (s : TrainDeepQ.LoopState)
    (i : TrainDeepQ.TickInput)
    (h : TrainDeepQ.EKind.startTraining ∈
      ((TrainDeepQ.game_loop s i).trace.map TrainDeepQ.Event.kind)) :
    (TrainDeepQ.game_loop s i).trace.map TrainDeepQ.Event.kind =
      [.getInputData, .calculateCommand, .move, .evaluate, .getInputData, .remember,
       .dumpMemory, .startTraining, .decayEpsilon, .initPosition, .resetScore] := by
  by_cases h1 : s.skipFrame = true
  · simp [TrainDeepQ.game_loop, h1] at h
  · have h1' : s.skipFrame = false := by simpa using h1
    by_cases h2 : i.evalAlive = false ∨ 300 ≤ s.timeElapsed + i.dt
    · by_cases h3 : i.threadAlive = true
      · exact absurd h
          (by simp [TrainDeepQ.game_loop, h1', h2, h3, TrainDeepQ.Event.kind])
      · have h3' : i.threadAlive = false := by simpa using h3
        simp [TrainDeepQ.game_loop, h1', h2, h3', TrainDeepQ.Event.kind]
    · simp [TrainDeepQ.game_loop, h1', h2, TrainDeepQ.Event.kind] at h

/-- Witness for `memory_dumped_before_training_starts` at a concrete
state and input. -/
theorem memory_dumped_before_training_starts_witness :
    (TrainDeepQ.game_loop
        { lastScore := 0, timeElapsed := 0, gameCount := 0, skipFrame := false, scores := [] }
        { dt := 1, stateVec := [], turnRate := 0, accelRate := 0, action := 0,
          evalAlive := false, scoreAfter := 0, newStateVec := [],
          threadAlive := false }).trace.map TrainDeepQ.Event.kind =
      [.getInputData, .calculateCommand, .move, .evaluate, .getInputData, .remember,
       .dumpMemory, .startTraining, .decayEpsilon, .initPosition, .resetScore] :=
  memory_dumped_before_training_starts _ _ (by decide)

/-- Claim C9: on every non-skipped tick the remembered reward is the
evaluator score after `evaluate(dt)` minus `last_score` from the end of
the previous tick; and over any run, each completed episode's
remembered rewards (with `last_score` starting at 0) sum to that
episode's final evaluator score. -/
theorem reward_telescoping :
    (∀ (s : TrainDeepQ.LoopState) (i : TrainDeepQ.TickInput), s.skipFrame = false →
        (TrainDeepQ.game_loop s i).reward = some (i.scoreAfter - s.lastScore)) ∧
      (∀ (inputs : List TrainDeepQ.TickInput) (s : TrainDeepQ.LoopState) (acc : List ℚ),
        acc.sum = s.lastScore →
        ∀ p ∈ TrainDeepQ.runEpisodes s acc inputs, p.1.sum = p.2) := by
  constructor
  · intro s i h
    simp only [TrainDeepQ.game_loop, h, Bool.false_eq_true, if_false]
    split <;> rfl
  · intro inputs
    induction inputs with
    | nil =>
      intro s acc hacc p hp
      simp [TrainDeepQ.runEpisodes] at hp
    | cons i rest ih =>
      intro s acc hacc p hp
      simp only [TrainDeepQ.runEpisodes] at hp
      by_cases h1 : s.skipFrame = true
      · have hrew : (TrainDeepQ.game_loop s i).reward = none := by
          simp [TrainDeepQ.game_loop, h1]
        have hend : (TrainDeepQ.game_loop s i).ended = false := by
          simp [TrainDeepQ.game_loop, h1]
        have hls : (TrainDeepQ.game_loop s i).state.lastScore = s.lastScore := by
          simp [TrainDeepQ.game_loop, h1]
        rw [hrew, hend] at hp
        simp at hp
        exact ih _ _ (by rw [hls, ← hacc]) p hp
      · have h1' : s.skipFrame = false := by simpa using h1
        by_cases h2 : i.evalAlive = false ∨ 300 ≤ s.timeElapsed + i.dt
        · have hrew : (TrainDeepQ.game_loop s i).reward =
              some (i.scoreAfter - s.lastScore) := by
            simp [TrainDeepQ.game_loop, h1', h2]
          have hend : (TrainDeepQ.game_loop s i).ended = true := by
            simp [TrainDeepQ.game_loop, h1', h2]
          have hls : (TrainDeepQ.game_loop s i).state.lastScore = 0 := by
            simp [TrainDeepQ.game_loop, h1', h2]
          rw [hrew, hend] at hp
          simp only [List.mem_cons, reduceIte, Option.toList_some] at hp
          rcases hp with hp | hp
          · subst hp
            simp only [List.sum_append, List.sum_cons, List.sum_nil, add_zero, hacc]
            ring
          · exact ih _ _ (by rw [hls]; simp) p hp
        · have hrew : (TrainDeepQ.game_loop s i).reward =
              some (i.scoreAfter - s.lastScore) := by
            simp [TrainDeepQ.game_loop, h1', h2]
          have hend : (TrainDeepQ.game_loop s i).ended = false := by
            simp [TrainDeepQ.game_loop, h1', h2]
          have hls : (TrainDeepQ.game_loop s i).state.lastScore = i.scoreAfter := by
            simp [TrainDeepQ.game_loop, h1', h2]
          rw [hrew, hend] at hp
          simp only [Bool.false_eq_true, reduceIte, Option.toList_some] at hp
          refine ih _ _ ?_ p hp
          rw [hls]
          simp [List.sum_append, hacc]

/-- Witness for `reward_telescoping`: a concrete one-tick episode whose
remembered reward equals the final score. -/
theorem reward_telescoping_witness :
    (TrainDeepQ.game_loop
        { lastScore := 0, timeElapsed := 0, gameCount := 0, skipFrame := false, scores := [] }
        { dt := 1, stateVec := [], turnRate := 0, accelRate := 0, action := 0,
          evalAlive := false, scoreAfter := 7, newStateVec := [],
          threadAlive := false }).reward = some ((7 : ℚ) - 0) ∧
      ([(7 : ℚ)].sum = (7 : ℚ)) :=
  ⟨reward_telescoping.1 _ _ rfl,
   reward_telescoping.2
     [{ dt := 1, stateVec := [], turnRate := 0, accelRate := 0, action := 0,
        evalAlive := false, scoreAfter := 7, newStateVec := [], threadAlive := false }]
     { lastScore := 0, timeElapsed := 0, gameCount := 0, skipFrame := false, scores := [] }
     [] rfl ([(7 : ℚ)], (7 : ℚ))
     (by simp [TrainDeepQ.runEpisodes, TrainDeepQ.game_loop])⟩

/-- Counterexample to claim C3: in `train_deep_q.py`'s `game_loop` no
per-tick call is wrapped in try/except, so an exception raised by
`get_input_data` propagates to the caller instead of being caught at
the tick boundary. -/
theorem train_tick_propagates_exception :
    TrainDeepQ.game_loopE
        { lastScore := 0, timeElapsed := 0, gameCount := 0, skipFrame := false, scores := [] }
        { dt := 1, getInputRes := .error 7, commandRes := .ok (0, 0, 0), moveRes := .ok (),
          evalRes := .ok true, scoreAfter := 0, newInputRes := .ok [],
          threadAlive := false } =
      .error 7 := rfl

/-- Claim C3 as amended: `main.py`'s `game_loop` catches every per-tick
exception (inner handlers degrade to a skipped read, a zero action, a
reset-and-return, or `done = True`; the outer catch-all absorbs the
rest) and never returns an error to its caller.  `train_deep_q.py`'s
`game_loop` has no such handling (see the counterexample). -/
theorem main_tick_never_propagates (inp : MainPy.MainTickInput) :
    ∃ r, MainPy.game_loop inp = .ok r := by
  rcases hb : MainPy.game_loop_body inp with e | r
  · exact ⟨.recoveredFromFault, by simp [MainPy.game_loop, pyRun, hb]⟩
  · exact ⟨r, by simp [MainPy.game_loop, pyRun, hb]⟩

/-- Claim C4: `_background_replay` returns normally on every outcome of
the `replay_memory` call — an exception is caught and logged inside the
worker, and a `None` loss (insufficient data) is a normal reported
condition that appends nothing to `losses`. -/
theorem background_training_errors_contained (r : Except Err (Option ℚ)) (losses : List ℚ) :
    (∃ out, TrainDeepQ.background_replay r losses = .ok out) ∧
      (r = .ok none →
        TrainDeepQ.background_replay r losses = .ok (losses, .finishedNoLoss)) ∧
      (∀ e, r = .error e →
        TrainDeepQ.background_replay r losses = .ok (losses, .errorLogged e)) := by
  rcases r with e | lo
  · exact ⟨⟨(losses, .errorLogged e), rfl⟩,
      And.intro (fun h => nomatch h)
        (fun e' he => by injection he with h; rw [← h]; rfl)⟩
  · rcases lo with _ | l
    · exact ⟨⟨(losses, .finishedNoLoss), rfl⟩,
        And.intro (fun _ => rfl) (fun e' he => nomatch he)⟩
    · exact ⟨⟨(losses ++ [l], .finishedWithLoss l), rfl⟩,
        And.intro (fun h => by simp at h) (fun e' he => nomatch he)⟩

/-- Witness for `background_training_errors_contained`: replaying with
insufficient data reports no loss and leaves `losses` unchanged. -/
theorem background_training_errors_contained_witness :
    TrainDeepQ.background_replay (.ok none) [3] = .ok ([3], .finishedNoLoss) :=
  (background_training_errors_contained (.ok none) [3]).2.1 rfl

/-- Claim C7: `on_close` never propagates an error (a failing model
save is caught), and when a training thread is in flight it first joins
it with the bounded 10-second timeout and only then attempts
`save_model_weights`. -/
theorem close_waits_then_saves (inp : TrainDeepQ.CloseInput) :
    (TrainDeepQ.on_close inp).2 = .ok () ∧
      (inp.threadAlive = true →
        (TrainDeepQ.on_close inp).1[0]? = some (.joinThread 10) ∧
        (TrainDeepQ.on_close inp).1[1]? = some .saveAttempt) := by
  rcases inp with ⟨ta, sr⟩
  cases ta <;> rcases sr with e | u <;>
    simp [TrainDeepQ.on_close, TrainDeepQ.on_close_body]

/-- Witness for `close_waits_then_saves`: closing with a live training
thread and a failing save still joins first, then attempts the save,
and returns normally. -/
theorem close_waits_then_saves_witness :
    (TrainDeepQ.on_close { threadAlive := true, saveRes := .error 3 }).2 = .ok () ∧
      ((TrainDeepQ.on_close { threadAlive := true, saveRes := .error 3 }).1[0]? =
          some (.joinThread 10) ∧
        (TrainDeepQ.on_close { threadAlive := true, saveRes := .error 3 }).1[1]? =
          some .saveAttempt) :=
  ⟨(close_waits_then_saves _).1, (close_waits_then_saves _).2 rfl⟩

/-- Claim C8: the module-level model loading of `main.py` never fails:
a missing weights file warns and continues with fresh parameters, and a
raising `load_model_weights` is caught, warns, and continues with fresh
parameters. -/
theorem missing_model_nonfatal (inp : MainPy.StartupInput) :
    (∃ o, MainPy.startup_model_load inp = .ok o) ∧
      (inp.modelFileExists = false →
        MainPy.startup_model_load inp = .ok { usedPretrained := false, warned := true }) ∧
      (∀ e, inp.loadRes = .error e →
        MainPy.startup_model_load inp = .ok { usedPretrained := false, warned := true }) := by
  rcases inp with ⟨ex, lr⟩
  cases ex <;> rcases lr with e | u
  · exact ⟨⟨_, rfl⟩, And.intro (fun _ => rfl) (fun e' _ => rfl)⟩
  · exact ⟨⟨_, rfl⟩, And.intro (fun _ => rfl) (fun e' he => nomatch he)⟩
  · exact ⟨⟨_, rfl⟩, And.intro (fun h => nomatch h) (fun e' _ => rfl)⟩
  · exact ⟨⟨_, rfl⟩, And.intro (fun h => nomatch h) (fun e' he => nomatch he)⟩

/-- Witness for `missing_model_nonfatal`: a corrupt weights file (the
load raises) still yields fresh parameters and a warning. -/
theorem missing_model_nonfatal_witness :
    MainPy.startup_model_load { modelFileExists := true, loadRes := .error 5 } =
      .ok { usedPretrained := false, warned := true } :=
  (missing_model_nonfatal _).2.2 5 rfl
